import Mathlib

/-!
Verification of the heal-plz core engine: a shallow embedding in Lean 4 of the
incident state machine, event normalizer and fingerprinting, alert
deduplication/escalation engine, stacktrace parser and streaming output
analyzer, together with theorems about their specified behaviour.

Each definition mirrors the corresponding Python source
(`src/heal_plz/engine/...`, `src/heal_plz/services/...`,
`src/heal_plz/db/models/...`).  Machine-independent data is modelled with
`Nat`, `String`, `List` and `Option`; timestamps are abstract `Nat` ticks;
Python `re` patterns are modelled by executable character-list matchers whose
semantics agree with the source patterns on the newline-free lines the
analyzer feeds them (every line is `rstrip`-ped before matching).
-/

set_option maxRecDepth 4000

/-! ## Incident status and the lifecycle state machine
(`db/models/incident.py`, `engine/state_machine.py`) -/

/-- `IncidentStatus` from `db/models/incident.py` (10 states).  The Python
member `OPEN` is rendered `open_` because `open` is a Lean keyword; its string
value is kept verbatim. -/
inductive IncidentStatus where
  | open_
  | investigating
  | root_cause_identified
  | fix_in_progress
  | fix_pending_review
  | fix_merged
  | verifying
  | resolved
  | closed
  | wont_fix
deriving DecidableEq, Repr, Fintype

/-- The `str` value of each `IncidentStatus` member. -/
def IncidentStatus.value : IncidentStatus → String
  | .open_ => "open"
  | .investigating => "investigating"
  | .root_cause_identified => "root_cause_identified"
  | .fix_in_progress => "fix_in_progress"
  | .fix_pending_review => "fix_pending_review"
  | .fix_merged => "fix_merged"
  | .verifying => "verifying"
  | .resolved => "resolved"
  | .closed => "closed"
  | .wont_fix => "wont_fix"

/-- `IncidentPriority` from `db/models/incident.py`. -/
inductive IncidentPriority where
  | p0 | p1 | p2 | p3 | p4
deriving DecidableEq, Repr

/-- `VALID_TRANSITIONS` from `engine/state_machine.py`: the allowed target
statuses for each current status. -/
def VALID_TRANSITIONS : IncidentStatus → List IncidentStatus
  | .open_ => [.investigating, .wont_fix, .closed]
  | .investigating => [.root_cause_identified, .open_, .wont_fix]
  | .root_cause_identified => [.fix_in_progress, .wont_fix]
  | .fix_in_progress => [.fix_pending_review, .root_cause_identified]
  | .fix_pending_review => [.fix_merged, .fix_in_progress]
  | .fix_merged => [.verifying]
  | .verifying => [.resolved, .fix_in_progress]
  | .resolved => [.closed, .open_]
  | .closed => [.open_]
  | .wont_fix => [.open_]

/-- `InvalidStateTransitionError` from `core/exceptions.py`, carrying the
`current_status` and `target_status` string values it is constructed with. -/
structure InvalidStateTransitionError where
  current_status : String
  target_status : String
deriving DecidableEq, Repr

/-- `validate_transition` from `engine/state_machine.py`: raising the
exception is modelled by returning it in `Except.error`. -/
def validate_transition (current target : IncidentStatus) :
    Except InvalidStateTransitionError Unit :=
  let allowed := VALID_TRANSITIONS current
  if target ∈ allowed then .ok ()
  else .error ⟨current.value, target.value⟩

/-- `TimelineEntry` rows created by the services, reduced to the fields the
services populate on status changes (`db/models/timeline.py`). -/
structure TimelineEntryM where
  event_type : String
  title : String
deriving DecidableEq, Repr

/-- The slice of an `Incident` row touched by
`IncidentService.transition_status`; the incident's timeline rows are carried
inline. -/
structure IncidentRec where
  status : IncidentStatus
  resolved_at : Option Nat
  timeline : List TimelineEntryM
deriving DecidableEq, Repr

/-- `IncidentService.transition_status` from `services/incident_service.py`
(the status-mutation core; event-bus publication is not modelled).  The
propagated `InvalidStateTransitionError` leaves the incident untouched, which
the `Except` result captures: on `.error` no updated incident is produced. -/
def transition_status (incident : IncidentRec) (new_status : IncidentStatus)
    (now : Nat) : Except InvalidStateTransitionError IncidentRec :=
  match validate_transition incident.status new_status with
  | .error e => .error e
  | .ok _ =>
    let old_status := incident.status
    let incident1 : IncidentRec :=
      { incident with
        status := new_status
        resolved_at :=
          if new_status = .resolved then some now else incident.resolved_at }
    .ok { incident1 with
          timeline := incident1.timeline ++
            [⟨"status_change",
              "Status changed: " ++ old_status.value ++ " → " ++
                new_status.value⟩] }

/-- The transition table written out in §4.5 of the specification, as the
list of (current, target) pairs the spec declares allowed.  This definition
follows the spec's words; it is compared with `VALID_TRANSITIONS`, which is
translated from the source. -/
def specAllowedTransitions : List (IncidentStatus × IncidentStatus) :=
  [(.open_, .investigating), (.open_, .wont_fix), (.open_, .closed),
   (.investigating, .root_cause_identified), (.investigating, .open_),
   (.investigating, .wont_fix),
   (.root_cause_identified, .fix_in_progress),
   (.root_cause_identified, .wont_fix),
   (.fix_in_progress, .fix_pending_review),
   (.fix_in_progress, .root_cause_identified),
   (.fix_pending_review, .fix_merged), (.fix_pending_review, .fix_in_progress),
   (.fix_merged, .verifying),
   (.verifying, .resolved), (.verifying, .fix_in_progress),
   (.resolved, .closed), (.resolved, .open_),
   (.closed, .open_),
   (.wont_fix, .open_)]

deriving instance DecidableEq for Except

theorem validate_transition_spec (cur tgt : IncidentStatus) :
    (validate_transition cur tgt = .ok () ↔
      (cur, tgt) ∈ specAllowedTransitions) ∧
    ((cur, tgt) ∉ specAllowedTransitions →
      validate_transition cur tgt = .error ⟨cur.value, tgt.value⟩) := by
  revert cur tgt; decide

/-- C3: `validate_transition` accepts exactly the §4.5 table pairs, rejects
every other pair with an `InvalidStateTransitionError` carrying the current
and target status values, and a rejected `transition_status` yields no
mutated incident (status unchanged, no timeline entry). -/
theorem C3_transition_table_closure (cur tgt : IncidentStatus)
    (incident : IncidentRec) (now : Nat) (h : incident.status = cur) :
    (validate_transition cur tgt = .ok () ↔
      (cur, tgt) ∈ specAllowedTransitions) ∧
    ((cur, tgt) ∉ specAllowedTransitions →
      validate_transition cur tgt = .error ⟨cur.value, tgt.value⟩ ∧
      transition_status incident tgt now = .error ⟨cur.value, tgt.value⟩) := by
  refine ⟨(validate_transition_spec cur tgt).1, fun hno => ?_⟩
  have he := (validate_transition_spec cur tgt).2 hno
  refine ⟨he, ?_⟩
  unfold transition_status
  rw [h, he]

/-- Witness for C3 at a concrete rejected pair: `open → fix_merged` is not in
the table and is rejected without mutation. -/
theorem C3_transition_table_closure_witness :
    (validate_transition .open_ .fix_merged = .ok () ↔
      (IncidentStatus.open_, IncidentStatus.fix_merged) ∈
        specAllowedTransitions) ∧
    ((IncidentStatus.open_, IncidentStatus.fix_merged) ∉
        specAllowedTransitions →
      validate_transition .open_ .fix_merged = .error ⟨"open", "fix_merged"⟩ ∧
      transition_status ⟨.open_, none, []⟩ .fix_merged 7 =
        .error ⟨"open", "fix_merged"⟩) :=
  C3_transition_table_closure .open_ .fix_merged ⟨.open_, none, []⟩ 7 rfl

/-! ## SHA-256 (`hashlib.sha256(raw.encode()).hexdigest()`)
Pure executable model over byte lists (bytes as `Nat < 256`), with 32-bit
words as `Nat` reduced mod `2^32`. -/

/-- Reduce to a 32-bit word. -/
def w32 (n : Nat) : Nat := n % 4294967296

/-- 32-bit right rotation. -/
def rotr32 (n a : Nat) : Nat := (a >>> n) ||| w32 (a <<< (32 - n))

def sha256K : List Nat :=
  [1116352408, 1899447441, 3049323471, 3921009573,
   961987163, 1508970993, 2453635748, 2870763221,
   3624381080, 310598401, 607225278, 1426881987,
   1925078388, 2162078206, 2614888103, 3248222580,
   3835390401, 4022224774, 264347078, 604807628,
   770255983, 1249150122, 1555081692, 1996064986,
   2554220882, 2821834349, 2952996808, 3210313671,
   3336571891, 3584528711, 113926993, 338241895,
   666307205, 773529912, 1294757372, 1396182291,
   1695183700, 1986661051, 2177026350, 2456956037,
   2730485921, 2820302411, 3259730800, 3345764771,
   3516065817, 3600352804, 4094571909, 275423344,
   430227734, 506948616, 659060556, 883997877,
   958139571, 1322822218, 1537002063, 1747873779,
   1955562222, 2024104815, 2227730452, 2361852424,
   2428436474, 2756734187, 3204031479, 3329325298]

def sha256H0 : List Nat :=
  [1779033703, 3144134277, 1013904242, 2773480762,
   1359893119, 2600822924, 528734635, 1541459225]

def smallSigma0 (x : Nat) : Nat := rotr32 7 x ^^^ rotr32 18 x ^^^ (x >>> 3)
def smallSigma1 (x : Nat) : Nat := rotr32 17 x ^^^ rotr32 19 x ^^^ (x >>> 10)
def bigSigma0 (x : Nat) : Nat := rotr32 2 x ^^^ rotr32 13 x ^^^ rotr32 22 x
def bigSigma1 (x : Nat) : Nat := rotr32 6 x ^^^ rotr32 11 x ^^^ rotr32 25 x
def chFn (e f g : Nat) : Nat := (e &&& f) ^^^ ((4294967295 - e) &&& g)
def majFn (a b c : Nat) : Nat := (a &&& b) ^^^ (a &&& c) ^^^ (b &&& c)

/-- First 16 message-schedule words of a 64-byte chunk (big-endian). -/
def chunkWords : List Nat → List Nat
  | b0 :: b1 :: b2 :: b3 :: rest =>
    (((b0 * 256 + b1) * 256 + b2) * 256 + b3) :: chunkWords rest
  | _ => []

/-- Extend the message schedule by `n` further words. -/
def extendSchedule : Nat → List Nat → List Nat
  | 0, ws => ws
  | n + 1, ws =>
    let i := ws.length
    let nw := w32 (ws.getD (i - 16) 0 + smallSigma0 (ws.getD (i - 15) 0) +
      ws.getD (i - 7) 0 + smallSigma1 (ws.getD (i - 2) 0))
    extendSchedule n (ws ++ [nw])

/-- One SHA-256 compression round on the working state `[a,b,c,d,e,f,g,h]`. -/
def compressRound (st : List Nat) (kw : Nat × Nat) : List Nat :=
  match st with
  | [a, b, c, d, e, f, g, h] =>
    let t1 := w32 (h + bigSigma1 e + chFn e f g + kw.1 + kw.2)
    let t2 := w32 (bigSigma0 a + majFn a b c)
    [w32 (t1 + t2), a, b, c, w32 (d + t1), e, f, g]
  | other => other

/-- Process one 64-byte chunk. -/
def processChunk (hs : List Nat) (chunk : List Nat) : List Nat :=
  let ws := extendSchedule 48 (chunkWords chunk)
  let st := (sha256K.zip ws).foldl compressRound hs
  (hs.zip st).map (fun p => w32 (p.1 + p.2))

/-- SHA-256 padding: `0x80`, zeros to 56 mod 64, then the 64-bit big-endian
bit length. -/
def sha256pad (bytes : List Nat) : List Nat :=
  let L := bytes.length
  let z := (119 - L % 64) % 64
  bytes ++ 128 :: List.replicate z 0 ++
    (List.range 8).map (fun i => (8 * L) >>> (56 - 8 * i) &&& 255)

/-- Split into 64-byte chunks. -/
def chunks64 : List Nat → List (List Nat)
  | [] => []
  | b :: bs =>
    ((b :: bs).take 64) :: chunks64 ((b :: bs).drop 64)
  termination_by l => l.length
  decreasing_by simp [List.length_drop]; omega

def hexChar (n : Nat) : Char :=
  if n < 10 then Char.ofNat (48 + n) else Char.ofNat (87 + n)

/-- Lowercase hex rendering of a 32-bit word, 8 digits. -/
def toHex8 (n : Nat) : List Char :=
  (List.range 8).map (fun i => hexChar ((n >>> (28 - 4 * i)) &&& 15))

/-- UTF-8 encoding of one code point (mirrors `str.encode()`). -/
def utf8Bytes (c : Char) : List Nat :=
  let n := c.toNat
  if n < 128 then [n]
  else if n < 2048 then [192 + n / 64, 128 + n % 64]
  else if n < 65536 then
    [224 + n / 4096, 128 + (n / 64) % 64, 128 + n % 64]
  else
    [240 + n / 262144, 128 + (n / 4096) % 64, 128 + (n / 64) % 64,
     128 + n % 64]

def sha256hexBytes (bytes : List Nat) : String :=
  String.mk ((((chunks64 (sha256pad bytes)).foldl processChunk
    sha256H0).map toHex8).flatten)

/-- `hashlib.sha256(s.encode()).hexdigest()`. -/
def sha256hex (s : String) : String :=
  sha256hexBytes ((s.data.map utf8Bytes).flatten)

/-! ## Event model and normalizer (`db/models/monitor_event.py`,
`engine/normalizer.py`) -/

/-- `EventSeverity` from `db/models/monitor_event.py`. -/
inductive EventSeverity where
  | critical | error | warning | info
deriving DecidableEq, Repr

/-- `EventSource` from `db/models/monitor_event.py`. -/
inductive EventSource where
  | github_actions | sentry | local_cli | webhook
deriving DecidableEq, Repr

/-- The `str` value of each `EventSource` member. -/
def EventSource.value : EventSource → String
  | .github_actions => "github_actions"
  | .sentry => "sentry"
  | .local_cli => "local_cli"
  | .webhook => "webhook"

/-- The string that `NormalizedEvent._compute_fingerprint` hashes, as a
character list: `"|".join([error_type or "", file_path or "",
error_message[:200] if error_message else ""])`.  (For a `String`,
`error_message[:200] if error_message else ""` coincides with taking the
first 200 characters, since the empty string truncates to itself.) -/
def fingerprint_input (error_type file_path : Option String)
    (error_message : String) : List Char :=
  (error_type.getD "").data ++ '|' ::
    ((file_path.getD "").data ++ '|' :: error_message.data.take 200)

/-- `NormalizedEvent._compute_fingerprint` from `engine/normalizer.py`:
SHA-256 hex digest of the joined parts. -/
def compute_fingerprint (error_type file_path : Option String)
    (error_message : String) : String :=
  sha256hex (String.mk (fingerprint_input error_type file_path error_message))

/-- `NormalizedEvent` from `engine/normalizer.py` (the `raw_payload` dict is
not modelled; no verified property reads it). -/
structure NormalizedEvent where
  source : EventSource
  severity : EventSeverity
  title : String
  error_message : String
  error_type : Option String
  stacktrace : Option String
  file_path : Option String
  line_number : Option Nat
  commit_sha : Option String
  branch : Option String
  environment : Option String
  fingerprint : String
deriving DecidableEq, Repr

/-- `NormalizedEvent.__init__`: stores the fields and computes the
fingerprint from (error_type, file_path, error_message). -/
def NormalizedEvent.make (source : EventSource) (severity : EventSeverity)
    (title error_message : String) (error_type stacktrace file_path :
    Option String := none) (line_number : Option Nat := none)
    (commit_sha branch environment : Option String := none) :
    NormalizedEvent :=
  { source, severity, title, error_message, error_type, stacktrace,
    file_path, line_number, commit_sha, branch, environment,
    fingerprint := compute_fingerprint error_type file_path error_message }

/-- The `workflow_run` object read by
`EventNormalizer.normalize_github_workflow_run`; each field is the result of
`run.get(key)` (absent key ↦ `none`). -/
structure WorkflowRunData where
  conclusion : Option String := none
  name : Option String := none
  head_branch : Option String := none
  head_sha : Option String := none
deriving DecidableEq, Repr

/-- A GitHub `workflow_run` webhook payload, reduced to the keys the
normalizer reads.  `repository_full_name` stands for
`payload.get("repository", {}).get("full_name")`. -/
structure WorkflowRunPayload where
  action : Option String := none
  workflow_run : Option WorkflowRunData := none
  repository_full_name : Option String := none
deriving DecidableEq, Repr

/-- `EventNormalizer.normalize_github_workflow_run` from
`engine/normalizer.py`. -/
def normalize_github_workflow_run (payload : WorkflowRunPayload) :
    Option NormalizedEvent :=
  if payload.action ≠ some "completed" then none
  else
    let run := payload.workflow_run.getD {}
    if run.conclusion ≠ some "failure" then none
    else
      let repo_name := payload.repository_full_name.getD "unknown"
      let workflow_name := run.name.getD "unknown"
      let branch := run.head_branch.getD "unknown"
      let commit_sha := run.head_sha
      some (NormalizedEvent.make .github_actions .error
        ("CI Failure: " ++ workflow_name ++ " on " ++ branch)
        ("Workflow '" ++ workflow_name ++ "' failed on " ++ repo_name ++
          " branch " ++ branch)
        (some "WorkflowFailure") none none none commit_sha (some branch)
        (some "ci"))

/-- One frame of a Sentry exception stacktrace; fields are `frame.get(...)`
results. -/
structure SentryFrame where
  filename : Option String := none
  lineno : Option Nat := none
  function : Option String := none
deriving DecidableEq, Repr

/-- One exception value of a Sentry event; `frames` stands for
`exc.get("stacktrace", {}).get("frames", [])`. -/
structure SentryException where
  type : Option String := none
  value : Option String := none
  frames : List SentryFrame := []
deriving DecidableEq, Repr

/-- The `event` object of a Sentry webhook payload, reduced to the keys the
normalizer reads; `values` stands for
`event.get("exception", {}).get("values", [])`. -/
structure SentryEventData where
  title : Option String := none
  level : Option String := none
  environment : Option String := none
  values : List SentryException := []
deriving DecidableEq, Repr

/-- A Sentry payload: `event` stands for
`payload.get("data", {}).get("event", {})`, with the falsy empty dict
rendered as `none`. -/
structure SentryPayload where
  event : Option SentryEventData := none
deriving DecidableEq, Repr

/-- Rendering of `Optional` values inside the f-string
`f"  File \"{...}\", line {...}, in {...}"` (Python prints `None`). -/
def optStr (o : Option String) : String := o.getD "None"

def optNatStr (o : Option Nat) : String :=
  match o with
  | some n => toString n
  | none => "None"

/-- The synthetic stacktrace line rebuilt per frame by
`normalize_sentry_event`. -/
def sentryFrameLine (f : SentryFrame) : String :=
  "  File \"" ++ optStr f.filename ++ "\", line " ++ optNatStr f.lineno ++
    ", in " ++ optStr f.function

/-- The `severity_map.get(level, ERROR)` table in `normalize_sentry_event`. -/
def sentrySeverity (level : String) : EventSeverity :=
  if level = "fatal" then .critical
  else if level = "error" then .error
  else if level = "warning" then .warning
  else if level = "info" then .info
  else .error

/-- `EventNormalizer.normalize_sentry_event` from `engine/normalizer.py`:
uses the last exception of the chain and derives file/line from that
exception's final stack frame. -/
def normalize_sentry_event (payload : SentryPayload) :
    Option NormalizedEvent :=
  match payload.event with
  | none => none
  | some ev =>
    let title := ev.title.getD "Unknown error"
    let level := ev.level.getD "error"
    let fields :=
      match ev.values.getLast? with
      | none => (none, title, none, none, none)
      | some exc =>
        let error_type := exc.type
        let error_message := exc.value.getD title
        match exc.frames.getLast? with
        | none => (error_type, error_message, none, none, none)
        | some last_frame =>
          (error_type, error_message,
            some (String.intercalate "\n" (exc.frames.map sentryFrameLine)),
            last_frame.filename, last_frame.lineno)
    match fields with
    | (error_type, error_message, stacktrace_text, file_path, line_number) =>
      some (NormalizedEvent.make .sentry (sentrySeverity level) title
        error_message error_type stacktrace_text file_path line_number
        none none (some (ev.environment.getD "production")))

/-! ## C2: fingerprint determinism and sensitivity -/

/-- A 201-character message whose 201st character is `b`. -/
def c2MsgA : String := String.mk (List.replicate 200 'a') ++ "b"

/-- A 201-character message whose 201st character is `c`. -/
def c2MsgB : String := String.mk (List.replicate 200 'a') ++ "c"

/-- Counterexample to C2 as stated: two events that differ only in
`error_message` (the difference lying beyond the 200th character) receive
EQUAL fingerprints, because `_compute_fingerprint` hashes only
`error_message[:200]`. -/
theorem C2_fingerprint_sensitivity_counterexample :
    (NormalizedEvent.make .sentry .error "t" c2MsgA (some "KeyError") none
        (some "app.py")).error_message ≠
      (NormalizedEvent.make .sentry .error "t" c2MsgB (some "KeyError") none
        (some "app.py")).error_message ∧
    (NormalizedEvent.make .sentry .error "t" c2MsgA (some "KeyError") none
        (some "app.py")).error_type =
      (NormalizedEvent.make .sentry .error "t" c2MsgB (some "KeyError") none
        (some "app.py")).error_type ∧
    (NormalizedEvent.make .sentry .error "t" c2MsgA (some "KeyError") none
        (some "app.py")).file_path =
      (NormalizedEvent.make .sentry .error "t" c2MsgB (some "KeyError") none
        (some "app.py")).file_path ∧
    (NormalizedEvent.make .sentry .error "t" c2MsgA (some "KeyError") none
        (some "app.py")).fingerprint =
      (NormalizedEvent.make .sentry .error "t" c2MsgB (some "KeyError") none
        (some "app.py")).fingerprint := by
  refine ⟨by decide, rfl, rfl, ?_⟩
  show compute_fingerprint (some "KeyError") (some "app.py") c2MsgA =
    compute_fingerprint (some "KeyError") (some "app.py") c2MsgB
  unfold compute_fingerprint
  have h : fingerprint_input (some "KeyError") (some "app.py") c2MsgA =
      fingerprint_input (some "KeyError") (some "app.py") c2MsgB := by decide
  rw [h]

/-- C2 amended: the fingerprint is deterministic (equal
(error_type, file_path, error_message) triples give equal fingerprints), and
the hash input is sensitive to each component up to the code's
normalizations: it changes whenever `error_type or ""` changes, whenever
`file_path or ""` changes, and whenever the first 200 characters of the
message change. -/
theorem C2_fingerprint_deterministic_and_sensitive
    (t1 t2 f1 f2 : Option String) (m1 m2 : String) :
    ((t1 = t2 ∧ f1 = f2 ∧ m1 = m2) →
      compute_fingerprint t1 f1 m1 = compute_fingerprint t2 f2 m2) ∧
    (f1 = f2 → m1 = m2 → t1.getD "" ≠ t2.getD "" →
      fingerprint_input t1 f1 m1 ≠ fingerprint_input t2 f2 m2) ∧
    (t1 = t2 → m1 = m2 → f1.getD "" ≠ f2.getD "" →
      fingerprint_input t1 f1 m1 ≠ fingerprint_input t2 f2 m2) ∧
    (t1 = t2 → f1 = f2 → m1.data.take 200 ≠ m2.data.take 200 →
      fingerprint_input t1 f1 m1 ≠ fingerprint_input t2 f2 m2) := by
  refine ⟨?_, ?_, ?_, ?_⟩
  · rintro ⟨rfl, rfl, rfl⟩; rfl
  · rintro rfl rfl hne heq
    exact hne (String.ext (List.append_cancel_right heq))
  · rintro rfl rfl hne heq
    unfold fingerprint_input at heq
    have h1 := List.cons_injective (List.append_cancel_left heq)
    exact hne (String.ext (List.append_cancel_right h1))
  · rintro rfl rfl hne heq
    unfold fingerprint_input at heq
    have h1 := List.cons_injective (List.append_cancel_left heq)
    have h2 := List.cons_injective (List.append_cancel_left h1)
    exact hne h2

/-- Witness for the amended C2 at concrete inputs: changing the error type
alone changes the hash input. -/
theorem C2_fingerprint_deterministic_and_sensitive_witness :
    fingerprint_input (some "KeyError") (some "f.py") "m" ≠
      fingerprint_input (some "TypeError") (some "f.py") "m" :=
  (C2_fingerprint_deterministic_and_sensitive (some "KeyError")
    (some "TypeError") (some "f.py") (some "f.py") "m" "m").2.1 rfl rfl
    (by decide)

/-! ## C8: workflow-run normalization filter -/

/-- C8: `normalize_github_workflow_run` produces an event exactly when the
payload's `action` is `"completed"` and the workflow run's `conclusion` is
`"failure"`; every other payload yields `none` (a total function — nothing
is raised). -/
theorem C8_workflow_run_filter (payload : WorkflowRunPayload) :
    ((normalize_github_workflow_run payload).isSome ↔
      (payload.action = some "completed" ∧
        (payload.workflow_run.getD {}).conclusion = some "failure")) ∧
    (¬ (payload.action = some "completed" ∧
        (payload.workflow_run.getD {}).conclusion = some "failure") →
      normalize_github_workflow_run payload = none) := by
  unfold normalize_github_workflow_run
  by_cases h1 : payload.action = some "completed" <;>
    by_cases h2 :
      (payload.workflow_run.getD {}).conclusion = some "failure" <;>
    simp [h1, h2]

/-- Witness for C8: a successful run (`conclusion = "success"`) is ignored,
producing no event. -/
theorem C8_workflow_run_filter_witness :
    normalize_github_workflow_run
      ⟨some "completed", some ⟨some "success", none, none, none⟩, none⟩ =
      none :=
  (C8_workflow_run_filter
    ⟨some "completed", some ⟨some "success", none, none, none⟩, none⟩).2
    (by decide)

/-! ## Alert engine (`db/models/alert.py`, `services/alert_service.py`)

The database tables touched by `AlertService` are modelled as in-memory
lists of rows; row mutation through the ORM session is modelled by replacing
the row (located by the same predicate, or by primary key) in the list.
`MonitorEvent` re-parenting, the timeline entry and the bus publication
performed by `_escalate_to_incident` touch no field any claim reads and are
not modelled. -/

/-- `AlertStatus` from `db/models/alert.py`. -/
inductive AlertStatus where
  | active | acknowledged | suppressed | escalated | resolved
deriving DecidableEq, Repr

/-- `AlertSeverity` from `db/models/alert.py`. -/
inductive AlertSeverity where
  | critical | high | medium | low | info
deriving DecidableEq, Repr

/-- `EVENT_TO_ALERT_SEVERITY` from `services/alert_service.py` (the `.get`
default `MEDIUM` is unreachable: every `EventSeverity` member is mapped). -/
def EVENT_TO_ALERT_SEVERITY : EventSeverity → AlertSeverity
  | .critical => .critical
  | .error => .high
  | .warning => .medium
  | .info => .info

/-- `ALERT_TO_INCIDENT_PRIORITY` from `services/alert_service.py`. -/
def ALERT_TO_INCIDENT_PRIORITY : AlertSeverity → IncidentPriority
  | .critical => .p0
  | .high => .p1
  | .medium => .p2
  | .low => .p3
  | .info => .p4

/-- `ESCALATION_RULES` from `services/alert_service.py` (every severity is
mapped, so the `.get` default 3 is unreachable). -/
def ESCALATION_RULES : AlertSeverity → Nat
  | .critical => 1
  | .high => 1
  | .medium => 3
  | .low => 5
  | .info => 10

/-- An `alerts` row (`db/models/alert.py`), restricted to the columns the
alert service reads or writes.  Primary keys are `Nat` surrogates. -/
structure Alert where
  id : Nat
  repository_id : Nat
  fingerprint : String
  status : AlertStatus
  severity : AlertSeverity
  occurrence_count : Nat
  escalation_threshold : Nat
  auto_escalate : Bool
  suppressed_until : Option Nat
  incident_id : Option Nat
  first_seen_at : Nat
  last_seen_at : Nat
deriving DecidableEq, Repr

/-- An `incidents` row (`db/models/incident.py`), restricted to the columns
`_escalate_to_incident` populates and the claims read. -/
structure Incident where
  id : Nat
  repository_id : Nat
  incident_number : Nat
  status : IncidentStatus
  priority : IncidentPriority
  event_count : Nat
  first_seen_at : Nat
  last_seen_at : Nat
deriving DecidableEq, Repr

/-- The persistent state the alert service reads and writes: the `alerts`
and `incidents` tables plus the id sequences. -/
structure AlertServiceState where
  alerts : List Alert
  incidents : List Incident
  next_alert_id : Nat
  next_incident_id : Nat
deriving DecidableEq, Repr

/-- Replace the first element satisfying `p` (an ORM row update). -/
def replaceFirst (p : α → Bool) (f : α → α) : List α → List α
  | [] => []
  | x :: xs => if p x then f x :: xs else x :: replaceFirst p f xs

/-- The `WHERE` clause of `AlertService._find_existing_alert`: matching
repository and fingerprint, status in {active, acknowledged, escalated,
suppressed} (resolved alerts never match). -/
def matchesLookup (repository_id : Nat) (fingerprint : String)
    (a : Alert) : Bool :=
  a.repository_id == repository_id && a.fingerprint == fingerprint &&
    (a.status == .active || a.status == .acknowledged ||
     a.status == .escalated || a.status == .suppressed)

/-- `AlertService._find_existing_alert` (`scalar_one_or_none` under the
one-active-alert-per-fingerprint invariant: the first matching row). -/
def find_existing_alert (st : AlertServiceState) (repository_id : Nat)
    (fingerprint : String) : Option Alert :=
  st.alerts.find? (matchesLookup repository_id fingerprint)

/-- `AlertService._create_alert`: a fresh alert with `occurrence_count = 1`,
severity mapped from the event severity, threshold from `ESCALATION_RULES`,
and the model defaults `status=ACTIVE`, `auto_escalate=True`,
`suppressed_until=None`, `first_seen_at=last_seen_at=now`. -/
def create_alert (st : AlertServiceState) (repository_id : Nat)
    (normalized : NormalizedEvent) (now : Nat) : Alert :=
  let severity := EVENT_TO_ALERT_SEVERITY normalized.severity
  { id := st.next_alert_id
    repository_id
    fingerprint := normalized.fingerprint
    status := .active
    severity
    occurrence_count := 1
    escalation_threshold := ESCALATION_RULES severity
    auto_escalate := true
    suppressed_until := none
    incident_id := none
    first_seen_at := now
    last_seen_at := now }

/-- `AlertService._update_alert`: increment `occurrence_count`, refresh
`last_seen_at`. -/
def update_alert (alert : Alert) (now : Nat) : Alert :=
  { alert with
    occurrence_count := alert.occurrence_count + 1
    last_seen_at := now }

/-- `AlertService._should_escalate`. -/
def should_escalate (alert : Alert) (now : Nat) : Bool :=
  if alert.status == .suppressed then false
  else if (match alert.suppressed_until with
           | some t => decide (now < t)
           | none => false) then false
  else if !alert.auto_escalate then false
  else decide (alert.escalation_threshold ≤ alert.occurrence_count)

/-- `IncidentRepository.get_next_incident_number`:
`max(incident_number) + 1` over the repository's incidents (1 when none). -/
def get_next_incident_number (st : AlertServiceState)
    (repository_id : Nat) : Nat :=
  (st.incidents.foldl
    (fun m i => if i.repository_id == repository_id then
        max m i.incident_number else m) 0) + 1

/-- `AlertService._escalate_to_incident`: set the alert `ESCALATED`, create
the incident (next per-repository number, priority from severity,
`event_count` = current occurrence count, `OPEN`), link alert → incident. -/
def escalate_to_incident (st : AlertServiceState) (alert : Alert) :
    AlertServiceState :=
  let alert1 := { alert with status := AlertStatus.escalated }
  let incident_number := get_next_incident_number st alert.repository_id
  let priority := ALERT_TO_INCIDENT_PRIORITY alert.severity
  let incident : Incident :=
    { id := st.next_incident_id
      repository_id := alert.repository_id
      incident_number
      status := .open_
      priority
      event_count := alert1.occurrence_count
      first_seen_at := alert1.first_seen_at
      last_seen_at := alert1.last_seen_at }
  let alert2 := { alert1 with incident_id := some incident.id }
  { st with
    alerts := replaceFirst (fun a => a.id == alert.id) (fun _ => alert2)
      st.alerts
    incidents := st.incidents ++ [incident]
    next_incident_id := st.next_incident_id + 1 }

/-- `AlertService.process_event`: dedup by (repository, fingerprint), update
or create, then escalate when `_should_escalate` holds and no incident is
linked yet. -/
def process_event (st : AlertServiceState) (repository_id : Nat)
    (normalized : NormalizedEvent) (now : Nat) : AlertServiceState :=
  match find_existing_alert st repository_id normalized.fingerprint with
  | some existing =>
    let alert := update_alert existing now
    let st1 := { st with
      alerts := replaceFirst (matchesLookup repository_id
        normalized.fingerprint) (fun _ => alert) st.alerts }
    if should_escalate alert now && alert.incident_id.isNone then
      escalate_to_incident st1 alert
    else st1
  | none =>
    let alert := create_alert st repository_id normalized now
    let st1 := { st with
      alerts := st.alerts ++ [alert]
      next_alert_id := st.next_alert_id + 1 }
    if should_escalate alert now && alert.incident_id.isNone then
      escalate_to_incident st1 alert
    else st1

/-- The empty state: a fresh repository with no alerts and no incidents. -/
def freshAlertState : AlertServiceState := ⟨[], [], 0, 0⟩

/-- A sequence of `process_event` calls (event, timestamp) against one
repository, starting from the empty state. -/
def runAlertService (repository_id : Nat)
    (calls : List (NormalizedEvent × Nat)) : AlertServiceState :=
  calls.foldl (fun st c => process_event st repository_id c.1 c.2)
    freshAlertState


/-- If `find?` locates `a` and `f a` still satisfies the predicate, then
after replacing the first match, `find?` locates `f a`. -/
theorem find?_replaceFirst (p : α → Bool) (f : α → α) (l : List α) (a : α)
    (hfind : l.find? p = some a) (hpf : p (f a) = true) :
    (replaceFirst p f l).find? p = some (f a) := by
  induction l with
  | nil => simp [List.find?] at hfind
  | cons x xs ih =>
    by_cases hx : p x = true
    · rw [List.find?_cons_of_pos _ hx] at hfind
      injection hfind with h
      subst h
      simp only [replaceFirst, if_pos hx]
      rw [List.find?_cons_of_pos _ hpf]
    · rw [List.find?_cons_of_neg _ hx] at hfind
      simp only [replaceFirst, if_neg hx]
      rw [List.find?_cons_of_neg _ hx]
      exact ih hfind

/-- `update_alert` touches only `occurrence_count` and `last_seen_at`, so a
row that matched the dedup lookup still matches afterwards. -/
theorem matchesLookup_update_alert (repository_id : Nat)
    (fingerprint : String) (a : Alert) (now : Nat)
    (h : matchesLookup repository_id fingerprint a = true) :
    matchesLookup repository_id fingerprint (update_alert a now) = true := by
  simpa [matchesLookup, update_alert] using h

/-- A normalized event with an explicitly given fingerprint, used to
instantiate theorems at concrete inputs. -/
def wEvent (sev : EventSeverity) (fp : String) : NormalizedEvent :=
  { source := .local_cli, severity := sev, title := "t",
    error_message := "m", error_type := none, stacktrace := none,
    file_path := none, line_number := none, commit_sha := none,
    branch := none, environment := none, fingerprint := fp }

/-- C4: a `process_event` call that matches an alert already linked to an
incident creates no second incident: the incidents table is untouched and
the same alert row (same `id`, same `incident_id`) is kept with
`occurrence_count` incremented and `last_seen_at` refreshed. -/
theorem C4_at_most_one_incident_per_alert (st : AlertServiceState)
    (repository_id : Nat) (normalized : NormalizedEvent) (now : Nat)
    (a : Alert)
    (hfind : find_existing_alert st repository_id normalized.fingerprint =
      some a)
    (hinc : a.incident_id.isSome) :
    (process_event st repository_id normalized now).incidents =
      st.incidents ∧
    find_existing_alert (process_event st repository_id normalized now)
        repository_id normalized.fingerprint =
      some { a with
             occurrence_count := a.occurrence_count + 1
             last_seen_at := now } := by
  have hp : matchesLookup repository_id normalized.fingerprint a = true :=
    List.find?_some hfind
  have hguard : (should_escalate (update_alert a now) now &&
      (update_alert a now).incident_id.isNone) = false := by
    cases h : a.incident_id with
    | none => rw [h] at hinc; simp at hinc
    | some i => simp [update_alert, h]
  simp only [process_event, hfind, hguard, Bool.false_eq_true, if_false]
  refine ⟨by trivial, ?_⟩
  show (replaceFirst _ _ st.alerts).find? _ = _
  exact find?_replaceFirst _ _ _ _ hfind
    (matchesLookup_update_alert _ _ _ _ hp)

/-- Witness for C4: the second identical event after a first-call escalation
keeps the incident table and the alert/incident ids, bumping the count
to 2. -/
theorem C4_at_most_one_incident_per_alert_witness :
    (process_event (process_event freshAlertState 7
        (wEvent .critical "fp") 5) 7 (wEvent .critical "fp") 6).incidents
      = (process_event freshAlertState 7 (wEvent .critical "fp") 5).incidents
    ∧
    find_existing_alert (process_event (process_event freshAlertState 7
        (wEvent .critical "fp") 5) 7 (wEvent .critical "fp") 6) 7
        (wEvent .critical "fp").fingerprint
      = some ⟨0, 7, "fp", .escalated, .critical, 2, 1, true, none, some 0,
          5, 6⟩ :=
  C4_at_most_one_incident_per_alert
    (process_event freshAlertState 7 (wEvent .critical "fp") 5) 7
    (wEvent .critical "fp") 6
    ⟨0, 7, "fp", .escalated, .critical, 1, 1, true, none, some 0, 5, 5⟩
    (by decide) (by decide)

/-- C5: a `process_event` call that matches a SUPPRESSED alert increments
`occurrence_count` and refreshes `last_seen_at` but leaves status and
incident linkage unchanged (the row keeps every other field) and creates no
incident, however large the count grows. -/
theorem C5_suppressed_alert_frame (st : AlertServiceState)
    (repository_id : Nat) (normalized : NormalizedEvent) (now : Nat)
    (a : Alert)
    (hfind : find_existing_alert st repository_id normalized.fingerprint =
      some a)
    (hsup : a.status = .suppressed) :
    (process_event st repository_id normalized now).incidents =
      st.incidents ∧
    find_existing_alert (process_event st repository_id normalized now)
        repository_id normalized.fingerprint =
      some { a with
             occurrence_count := a.occurrence_count + 1
             last_seen_at := now } := by
  have hp : matchesLookup repository_id normalized.fingerprint a = true :=
    List.find?_some hfind
  have hguard : (should_escalate (update_alert a now) now &&
      (update_alert a now).incident_id.isNone) = false := by
    simp [should_escalate, update_alert, hsup]
  simp only [process_event, hfind, hguard, Bool.false_eq_true, if_false]
  refine ⟨by trivial, ?_⟩
  show (replaceFirst _ _ st.alerts).find? _ = _
  exact find?_replaceFirst _ _ _ _ hfind
    (matchesLookup_update_alert _ _ _ _ hp)

/-- Witness for C5: a suppressed alert absorbs an event — count 3 → 4,
status still suppressed, no incident appears. -/
theorem C5_suppressed_alert_frame_witness :
    (process_event
        ⟨[⟨0, 7, "fp", .suppressed, .high, 3, 1, true, none, none, 1, 2⟩],
          [], 1, 0⟩ 7 (wEvent .error "fp") 9).incidents = [] ∧
    find_existing_alert (process_event
        ⟨[⟨0, 7, "fp", .suppressed, .high, 3, 1, true, none, none, 1, 2⟩],
          [], 1, 0⟩ 7 (wEvent .error "fp") 9) 7 "fp" =
      some ⟨0, 7, "fp", .suppressed, .high, 4, 1, true, none, none, 1, 9⟩ :=
  C5_suppressed_alert_frame
    ⟨[⟨0, 7, "fp", .suppressed, .high, 3, 1, true, none, none, 1, 2⟩],
      [], 1, 0⟩ 7 (wEvent .error "fp") 9
    ⟨0, 7, "fp", .suppressed, .high, 3, 1, true, none, none, 1, 2⟩
    (by decide) rfl

/-- Every escalation threshold in `ESCALATION_RULES` is at least 1. -/
theorem escalation_rules_pos (S : AlertSeverity) :
    1 ≤ ESCALATION_RULES S := by
  cases S <;> decide

/-- The service state after `k` same-fingerprint events on a fresh
repository, while still below the escalation threshold: one active alert
with `occurrence_count = k`, no incident. -/
def c1MidState (repository_id : Nat) (fp : String) (S : AlertSeverity)
    (k t1 tk : Nat) : AlertServiceState :=
  ⟨[⟨0, repository_id, fp, .active, S, k, ESCALATION_RULES S, true, none,
     none, t1, tk⟩], [], 1, 0⟩

/-- The service state once the threshold has been reached: the alert
escalated and linked to the single incident #1, whose `event_count` froze at
the escalation call. -/
def c1EscState (repository_id : Nat) (fp : String) (S : AlertSeverity)
    (k ec t1 tk te : Nat) : AlertServiceState :=
  ⟨[⟨0, repository_id, fp, .escalated, S, k, ESCALATION_RULES S, true, none,
     some 0, t1, tk⟩],
   [⟨0, repository_id, 1, .open_, ALERT_TO_INCIDENT_PRIORITY S, ec, t1, te⟩],
   1, 1⟩

/-- First `process_event` on a fresh repository: creates the alert and
escalates at once exactly when the threshold is 1. -/
theorem c1_step_create (repo : Nat) (ev : NormalizedEvent) (t : Nat) :
    process_event freshAlertState repo ev t =
      if ESCALATION_RULES (EVENT_TO_ALERT_SEVERITY ev.severity) ≤ 1 then
        c1EscState repo ev.fingerprint (EVENT_TO_ALERT_SEVERITY ev.severity)
          1 1 t t t
      else
        c1MidState repo ev.fingerprint (EVENT_TO_ALERT_SEVERITY ev.severity)
          1 t t := by
  by_cases h : ESCALATION_RULES (EVENT_TO_ALERT_SEVERITY ev.severity) ≤ 1 <;>
    simp [process_event, find_existing_alert, freshAlertState, create_alert,
      should_escalate, escalate_to_incident, get_next_incident_number,
      replaceFirst, c1EscState, c1MidState, h]

/-- A further same-fingerprint event below the threshold: occurrence count
grows by one and the call escalates exactly when the new count reaches the
threshold. -/
theorem c1_step_mid (repo : Nat) (fp : String) (S : AlertSeverity)
    (k t1 tk now : Nat) (ev : NormalizedEvent)
    (hfp : ev.fingerprint = fp) :
    process_event (c1MidState repo fp S k t1 tk) repo ev now =
      if ESCALATION_RULES S ≤ k + 1 then
        c1EscState repo fp S (k + 1) (k + 1) t1 now now
      else c1MidState repo fp S (k + 1) t1 now := by
  subst hfp
  by_cases h : ESCALATION_RULES S ≤ k + 1 <;>
    simp [process_event, find_existing_alert, c1MidState, matchesLookup,
      update_alert, should_escalate, escalate_to_incident,
      get_next_incident_number, replaceFirst, c1EscState, List.find?, h]

/-- A further same-fingerprint event once escalated: the count keeps
growing, the incident table and the link stay untouched. -/
theorem c1_step_esc (repo : Nat) (fp : String) (S : AlertSeverity)
    (k ec t1 tk te now : Nat) (ev : NormalizedEvent)
    (hfp : ev.fingerprint = fp) :
    process_event (c1EscState repo fp S k ec t1 tk te) repo ev now =
      c1EscState repo fp S (k + 1) ec t1 now te := by
  subst hfp
  simp [process_event, find_existing_alert, c1EscState, matchesLookup,
    update_alert, replaceFirst, List.find?]


/-- Shape of the state after the first `k` calls of a same-fingerprint
run: below the threshold a single active alert counting occurrences, from
the threshold on the escalated alert linked to the one incident (whose
`event_count` froze at the threshold). -/
theorem c1_run_shape (repo : Nat) (fp : String)
    (evs : List (NormalizedEvent × Nat)) (hne : evs ≠ [])
    (hfp : ∀ c ∈ evs, c.1.fingerprint = fp) (k : Nat) (hk1 : 1 ≤ k)
    (hk2 : k ≤ evs.length) :
    ∃ t1 tk te,
      runAlertService repo (evs.take k) =
        if ESCALATION_RULES
            (EVENT_TO_ALERT_SEVERITY (evs.head hne).1.severity) ≤ k then
          c1EscState repo fp
            (EVENT_TO_ALERT_SEVERITY (evs.head hne).1.severity) k
            (ESCALATION_RULES
              (EVENT_TO_ALERT_SEVERITY (evs.head hne).1.severity)) t1 tk te
        else
          c1MidState repo fp
            (EVENT_TO_ALERT_SEVERITY (evs.head hne).1.severity) k t1 tk := by
  obtain ⟨c, rest, rfl⟩ := List.exists_cons_of_ne_nil hne
  simp only [List.head_cons]
  induction k with
  | zero => omega
  | succ k ih =>
    cases k with
    | zero =>
      have hcfp : c.1.fingerprint = fp := hfp c (List.mem_cons_self c rest)
      have hrun : runAlertService repo ((c :: rest).take (0 + 1)) =
          process_event freshAlertState repo c.1 c.2 := by
        simp [runAlertService]
      rw [hrun, c1_step_create, hcfp]
      by_cases h1 :
        ESCALATION_RULES (EVENT_TO_ALERT_SEVERITY c.1.severity) ≤ 1
      · have hθ1 :
            ESCALATION_RULES (EVENT_TO_ALERT_SEVERITY c.1.severity) = 1 :=
          Nat.le_antisymm h1 (escalation_rules_pos _)
        refine ⟨c.2, c.2, c.2, ?_⟩
        rw [if_pos h1, if_pos (show ESCALATION_RULES
          (EVENT_TO_ALERT_SEVERITY c.1.severity) ≤ 0 + 1 by omega), hθ1]
      · refine ⟨c.2, c.2, 0, ?_⟩
        rw [if_neg h1, if_neg (show ¬ ESCALATION_RULES
          (EVENT_TO_ALERT_SEVERITY c.1.severity) ≤ 0 + 1 by omega)]
    | succ k' =>
      have hk' : 1 ≤ k' + 1 := by omega
      have hk'2 : k' + 1 ≤ (c :: rest).length := by omega
      obtain ⟨t1, tk, te, hsh⟩ := ih hk' hk'2
      have hlt : k' + 1 < (c :: rest).length := by omega
      have hx : ((c :: rest).get ⟨k' + 1, hlt⟩) ∈ c :: rest :=
        List.get_mem (c :: rest) (k' + 1) hlt
      have hxfp : (((c :: rest).get ⟨k' + 1, hlt⟩)).1.fingerprint = fp :=
        hfp _ hx
      have htake : (c :: rest).take (k' + 1 + 1) =
          (c :: rest).take (k' + 1) ++ [((c :: rest).get ⟨k' + 1, hlt⟩)] := by
        rw [List.take_succ, List.getElem?_eq_getElem hlt]
        rfl
      have hrun : runAlertService repo ((c :: rest).take (k' + 1 + 1)) =
          process_event (runAlertService repo ((c :: rest).take (k' + 1)))
            repo (((c :: rest).get ⟨k' + 1, hlt⟩)).1
            (((c :: rest).get ⟨k' + 1, hlt⟩)).2 := by
        rw [htake]
        unfold runAlertService
        rw [List.foldl_append, List.foldl_cons, List.foldl_nil]
      rw [hrun, hsh]
      by_cases hθk :
        ESCALATION_RULES (EVENT_TO_ALERT_SEVERITY c.1.severity) ≤ k' + 1
      · refine ⟨t1, (((c :: rest).get ⟨k' + 1, hlt⟩)).2, te, ?_⟩
        rw [if_pos hθk]
        rw [c1_step_esc repo fp (EVENT_TO_ALERT_SEVERITY c.1.severity)
          (k' + 1) (ESCALATION_RULES (EVENT_TO_ALERT_SEVERITY c.1.severity))
          t1 tk te _ _ hxfp]
        rw [if_pos (show ESCALATION_RULES
          (EVENT_TO_ALERT_SEVERITY c.1.severity) ≤ k' + 1 + 1 by omega)]
      · by_cases hθk1 :
          ESCALATION_RULES (EVENT_TO_ALERT_SEVERITY c.1.severity) ≤
            k' + 1 + 1
        · have hermes :
              ESCALATION_RULES (EVENT_TO_ALERT_SEVERITY c.1.severity) =
                k' + 1 + 1 := by omega
          refine ⟨t1, (((c :: rest).get ⟨k' + 1, hlt⟩)).2,
            (((c :: rest).get ⟨k' + 1, hlt⟩)).2, ?_⟩
          rw [if_neg hθk]
          rw [c1_step_mid repo fp (EVENT_TO_ALERT_SEVERITY c.1.severity)
            (k' + 1) t1 tk _ _ hxfp]
          rw [if_pos hθk1, if_pos hθk1, hermes]
        · refine ⟨t1, (((c :: rest).get ⟨k' + 1, hlt⟩)).2, 0, ?_⟩
          rw [if_neg hθk]
          rw [c1_step_mid repo fp (EVENT_TO_ALERT_SEVERITY c.1.severity)
            (k' + 1) t1 tk _ _ hxfp]
          rw [if_neg hθk1, if_neg hθk1]

/-- C1: in a same-fingerprint run on a fresh repository the alert severity is
mapped from the event severity (Critical→Critical, Error→High,
Warning→Medium, Info→Info), the escalation threshold follows the table
{Critical 1, High 1, Medium 3, Low 5, Info 10}, and the incident is created —
with the alert set to ESCALATED — exactly on the call whose number reaches
the threshold of the (first) event's mapped severity, never earlier; so
threshold-1 severities escalate on the very first call. -/
theorem C1_escalation_exactly_at_threshold (repo : Nat) (fp : String)
    (evs : List (NormalizedEvent × Nat)) (hne : evs ≠ [])
    (hfp : ∀ c ∈ evs, c.1.fingerprint = fp) :
    (ESCALATION_RULES .critical = 1 ∧ ESCALATION_RULES .high = 1 ∧
     ESCALATION_RULES .medium = 3 ∧ ESCALATION_RULES .low = 5 ∧
     ESCALATION_RULES .info = 10 ∧
     EVENT_TO_ALERT_SEVERITY .critical = .critical ∧
     EVENT_TO_ALERT_SEVERITY .error = .high ∧
     EVENT_TO_ALERT_SEVERITY .warning = .medium ∧
     EVENT_TO_ALERT_SEVERITY .info = .info) ∧
    ∀ k, 1 ≤ k → k ≤ evs.length →
      ((runAlertService repo (evs.take k)).alerts.map
          (fun a => (a.occurrence_count, a.status)) =
        [(k, if ESCALATION_RULES (EVENT_TO_ALERT_SEVERITY
            (evs.head hne).1.severity) ≤ k then AlertStatus.escalated
          else AlertStatus.active)]) ∧
      ((runAlertService repo (evs.take k)).incidents.length =
        if ESCALATION_RULES (EVENT_TO_ALERT_SEVERITY
            (evs.head hne).1.severity) ≤ k then 1 else 0) ∧
      (k = ESCALATION_RULES (EVENT_TO_ALERT_SEVERITY
          (evs.head hne).1.severity) →
        (runAlertService repo (evs.take k)).incidents.map
            (fun i => (i.incident_number, i.status, i.event_count)) =
          [(1, IncidentStatus.open_,
            ESCALATION_RULES (EVENT_TO_ALERT_SEVERITY
              (evs.head hne).1.severity))]) := by
  refine ⟨⟨rfl, rfl, rfl, rfl, rfl, rfl, rfl, rfl, rfl⟩,
    fun k hk1 hk2 => ?_⟩
  obtain ⟨t1, tk, te, hsh⟩ := c1_run_shape repo fp evs hne hfp k hk1 hk2
  rw [hsh]
  by_cases hθ : ESCALATION_RULES (EVENT_TO_ALERT_SEVERITY
      (evs.head hne).1.severity) ≤ k
  · simp [c1EscState, if_pos hθ, hθ]
  · refine ⟨by simp [c1MidState, if_neg hθ], by simp [c1MidState, hθ], ?_⟩
    intro heq
    omega

/-- Witness for C1: a single critical event on a fresh repository escalates
immediately — occurrence count 1, alert escalated, incident #1 OPEN with
event_count 1. -/
theorem C1_escalation_exactly_at_threshold_witness :
    ((runAlertService 7 ([(wEvent .critical "fp", 5)].take 1)).alerts.map
        (fun a => (a.occurrence_count, a.status)) =
      [(1, AlertStatus.escalated)]) ∧
    ((runAlertService 7
        ([(wEvent .critical "fp", 5)].take 1)).incidents.length = 1) ∧
    ((runAlertService 7 ([(wEvent .critical "fp", 5)].take 1)).incidents.map
        (fun i => (i.incident_number, i.status, i.event_count)) =
      [(1, IncidentStatus.open_, 1)]) := by
  have h := (C1_escalation_exactly_at_threshold 7 "fp"
    [(wEvent .critical "fp", 5)] (by simp)
    (by intro c hc; rw [List.mem_singleton] at hc; subst hc; rfl)).2 1
    (by omega) (by simp)
  simpa [wEvent, EVENT_TO_ALERT_SEVERITY, ESCALATION_RULES] using h

/-! ## Stacktrace parser (`engine/stacktrace_parser.py`)

Each `re` pattern of the source is modelled by an executable matcher on
character lists with the same backtracking semantics (greedy quantifiers
take maximal runs, which is deterministic here because every quantified
class excludes the following literal; lazy quantifiers enumerate split
points in increasing order).  `\w` is modelled as ASCII `[A-Za-z0-9_]`. -/

/-- `\w` (ASCII). -/
def isWordChar (c : Char) : Bool := c.isAlphanum || c == '_'

/-- `[0-9a-f]`. -/
def isHexChar (c : Char) : Bool :=
  c.isDigit || (decide ('a' ≤ c) && decide (c ≤ 'f'))

/-- Strip an exact literal from the head, Python `re` literal matching. -/
def stripL : List Char → List Char → Option (List Char)
  | [], cs => some cs
  | _ :: _, [] => none
  | p :: ps, c :: cs => if c == p then stripL ps cs else none

/-- Digits to a number (`int(...)` on a `\d+` capture). -/
def natOfDigits (ds : List Char) : Nat :=
  ds.foldl (fun n c => n * 10 + (c.toNat - 48)) 0

/-- `str.split(sep)` for a one-character separator. -/
def splitOnChar (sep : Char) : List Char → List (List Char)
  | [] => [[]]
  | c :: cs =>
    match splitOnChar sep cs with
    | [] => [[]]
    | l :: ls => if c == sep then [] :: l :: ls else (c :: l) :: ls

/-- Does `t` end with the literal `suffix`? -/
def endsWithChars (suffix t : List Char) : Bool :=
  decide (suffix.length ≤ t.length) &&
    (t.drop (t.length - suffix.length) == suffix)

/-- `re.finditer` worker: scan left to right, at each position attempt the
pattern matcher (which reports its captures and the number of characters it
consumed, always ≥ 1 for these patterns); continue after each match.  The
fuel argument only forces structural recursion; every step consumes at
least one character, so `fuel = l.length` never runs out. -/
def scanAux (tryAt : List Char → Option (α × Nat)) :
    Nat → List Char → Nat → List (Nat × α)
  | 0, _, _ => []
  | _ + 1, [], _ => []
  | fuel + 1, c :: cs, n =>
    match tryAt (c :: cs) with
    | some (a, k) =>
      (n, a) :: scanAux tryAt fuel (List.drop (max k 1) (c :: cs))
        (n + max k 1)
    | none => scanAux tryAt fuel cs (n + 1)

/-- `re.finditer` over `l`, reporting (start position, captures). -/
def scanMatches (tryAt : List Char → Option (α × Nat))
    (l : List Char) (n : Nat) : List (Nat × α) :=
  scanAux tryAt l.length l n

/-- The group `\w+(?:\.\w+)*Error`: dot-separated nonempty word components,
the last of which is a word of length ≥ 6 ending in `Error`. -/
def dottedErrorName (t : List Char) : Bool :=
  let parts := splitOnChar '.' t
  parts.all (fun p => !p.isEmpty && p.all isWordChar) &&
    (match parts.getLast? with
     | some lastp =>
       endsWithChars "Error".data lastp && decide (6 ≤ lastp.length)
     | none => false)

/-- The group `\w+Exception`: a word of length ≥ 10 ending in
`Exception`. -/
def wordExceptionName (t : List Char) : Bool :=
  t.all isWordChar && endsWithChars "Exception".data t &&
    decide (10 ≤ t.length)

/-- `StackFrame` from `engine/stacktrace_parser.py`. -/
structure StackFrame where
  file_path : String
  line_number : Option Nat
  function_name : Option String
  code_line : Option String := none
deriving DecidableEq, Repr

/-- `ParsedStacktrace` from `engine/stacktrace_parser.py`. -/
structure ParsedStacktrace where
  frames : List StackFrame
  error_type : Option String := none
  error_message : Option String := none
  language : Option String := none
deriving DecidableEq, Repr

/-- `PYTHON_FRAME = File "([^"]+)", line (\d+)(?:, in (\w+))?` attempted at
the head of `cs`; yields ((path, line, function), consumed length).  The
greedy `[^"]+` runs to the next quote; the greedy optional group is taken
whenever `, in ` plus at least one word character follows. -/
def pythonFrameTry (cs : List Char) :
    Option ((String × Nat × Option String) × Nat) :=
  match stripL "File \"".data cs with
  | none => none
  | some r1 =>
    let path := r1.takeWhile (fun c => !(c == '"'))
    if path.isEmpty then none
    else
      match stripL "\", line ".data (r1.drop path.length) with
      | none => none
      | some r2 =>
        let ds := r2.takeWhile Char.isDigit
        if ds.isEmpty then none
        else
          let base := 6 + path.length + 8 + ds.length
          match stripL ", in ".data (r2.drop ds.length) with
          | none => some ((String.mk path, natOfDigits ds, none), base)
          | some r4 =>
            let w := r4.takeWhile isWordChar
            if w.isEmpty then
              some ((String.mk path, natOfDigits ds, none), base)
            else
              some ((String.mk path, natOfDigits ds, some (String.mk w)),
                base + 5 + w.length)

/-- One line matched against `PYTHON_ERROR =
^(\w+(?:\.\w+)*Error|\w+Exception): (.+)$` (`re.MULTILINE` anchors at line
boundaries; no sub-pattern can cross a newline, so the whole-text search is
the first matching line). -/
def pythonErrorLine (line : List Char) : Option (String × String) :=
  let t := line.takeWhile (fun c => !(c == ':'))
  if dottedErrorName t || wordExceptionName t then
    match stripL ": ".data (line.drop t.length) with
    | some msg =>
      if msg.isEmpty then none else some (String.mk t, String.mk msg)
    | none => none
  else none

/-- `StacktraceParser._parse_python`. -/
def parse_python (text : String) : ParsedStacktrace :=
  let frames := (scanMatches pythonFrameTry text.data 0).map (fun p =>
    { file_path := p.2.1, line_number := some p.2.2.1,
      function_name := p.2.2.2 : StackFrame })
  match (splitOnChar '\n' text.data).findSome? pythonErrorLine with
  | some em => { frames, error_type := some em.1, error_message := some em.2 }
  | none => { frames }

/-- `(\d+):\d+\)?` — the numeric tail of `JS_FRAME` after the path colon:
greedy digit runs, then the greedy optional closing paren.  Returns the
first captured number and the consumed length. -/
def jsNums (cs : List Char) : Option (Nat × Nat) :=
  let d1 := cs.takeWhile Char.isDigit
  if d1.isEmpty then none
  else
    match cs.drop d1.length with
    | ':' :: r2 =>
      let d2 := r2.takeWhile Char.isDigit
      if d2.isEmpty then none
      else
        let paren := match r2.drop d2.length with
          | ')' :: _ => 1
          | _ => 0
        some (natOfDigits d1, d1.length + 1 + d2.length + paren)
    | _ => none

/-- `(.+?):(\d+):\d+\)?` — the lazy group enumerates split points in
increasing order: the shortest nonempty newline-free prefix followed by a
parsable numeric tail wins.  `acc` holds the reversed prefix read so far. -/
def jsTailAux (acc : List Char) : List Char → Option ((String × Nat) × Nat)
  | [] => none
  | c :: cs =>
    if c == ':' && !acc.isEmpty then
      match jsNums cs with
      | some (n1, k) =>
        some ((String.mk acc.reverse, n1), acc.length + 1 + k)
      | none => if c == '\n' then none else jsTailAux (c :: acc) cs
    else if c == '\n' then none else jsTailAux (c :: acc) cs

def jsTail (cs : List Char) : Option ((String × Nat) × Nat) :=
  jsTailAux [] cs

/-- The greedy optional group `(?:(.+?) \()?` of `JS_FRAME`: enumerate the
lazy ` (`-split points in increasing order, trying the full tail after each;
`acc` holds the reversed candidate name. -/
def jsWithNameAux (acc : List Char) :
    List Char → Option ((Option String × String × Nat) × Nat)
  | [] => none
  | c :: cs =>
    if c == ' ' && !acc.isEmpty && cs.head? == some '(' then
      match jsTail cs.tail with
      | some ((file, line), k) =>
        some ((some (String.mk acc.reverse), file, line),
          3 + acc.length + 2 + k)
      | none => if c == '\n' then none else jsWithNameAux (c :: acc) cs
    else if c == '\n' then none else jsWithNameAux (c :: acc) cs

/-- `JS_FRAME = at (?:(.+?) \()?(.+?):(\d+):\d+\)?` attempted at the head;
the greedy optional name group is tried (with all its split points) before
the plain form. -/
def jsFrameTry (cs : List Char) :
    Option ((Option String × String × Nat) × Nat) :=
  match stripL "at ".data cs with
  | none => none
  | some r =>
    match jsWithNameAux [] r with
    | some res => some res
    | none =>
      match jsTail r with
      | some ((file, line), k) => some ((none, file, line), 3 + k)
      | none => none

/-- One line matched against `JS_ERROR = ^(\w+Error): (.+)$`. -/
def jsErrorLine (line : List Char) : Option (String × String) :=
  let t := line.takeWhile (fun c => !(c == ':'))
  if t.all isWordChar && endsWithChars "Error".data t &&
      decide (6 ≤ t.length) then
    match stripL ": ".data (line.drop t.length) with
    | some msg =>
      if msg.isEmpty then none else some (String.mk t, String.mk msg)
    | none => none
  else none

/-- `StacktraceParser._parse_javascript`. -/
def parse_javascript (text : String) : ParsedStacktrace :=
  let frames := (scanMatches jsFrameTry text.data 0).map (fun p =>
    { file_path := p.2.2.1, line_number := some p.2.2.2,
      function_name := p.2.1 : StackFrame })
  match (splitOnChar '\n' text.data).findSome? jsErrorLine with
  | some em => { frames, error_type := some em.1, error_message := some em.2 }
  | none => { frames }

/-- `:(\d+)(?: \+0x[0-9a-f]+)?$` — tail of `GO_FRAME`, anchored to the end
of the line; returns the captured line number. -/
def goTailNum (rest : List Char) : Option Nat :=
  match rest with
  | ':' :: r =>
    let ds := r.takeWhile Char.isDigit
    if ds.isEmpty then none
    else
      let r2 := r.drop ds.length
      if r2.isEmpty then some (natOfDigits ds)
      else
        match stripL " +0x".data r2 with
        | some r3 =>
          let hs := r3.takeWhile isHexChar
          if !hs.isEmpty && (r3.drop hs.length).isEmpty then
            some (natOfDigits ds)
          else none
        | none => none
  | _ => none

/-- One line matched against `GO_FRAME = ^\t(.+\.go):(\d+)(?:
\+0x[0-9a-f]+)?$` (`re.MULTILINE`; at most one match per line since `^\t`
anchors it).  The greedy `(.+\.go)` takes the largest split point. -/
def goFrameLine (line : List Char) : Option (String × Nat) :=
  match line with
  | '\t' :: body =>
    (List.range (body.length + 1)).reverse.findSome? (fun i =>
      let g := body.take i
      if decide (4 ≤ i) && endsWithChars ".go".data g then
        match goTailNum (body.drop i) with
        | some n => some (String.mk g, n)
        | none => none
      else none)
  | _ => none

/-- `StacktraceParser._parse_go`: frames only, no error pattern. -/
def parse_go (text : String) : ParsedStacktrace :=
  { frames := (splitOnChar '\n' text.data).filterMap (fun l =>
      (goFrameLine l).map (fun p =>
        { file_path := p.1, line_number := some p.2,
          function_name := none : StackFrame })) }

/-- `[\w.$]`. -/
def javaNameChar (c : Char) : Bool := isWordChar c || c == '.' || c == '$'

/-- `JAVA_FRAME = at ([\w.$]+)\(([\w.]+):(\d+)\)` attempted at the head;
every quantified class excludes the following literal, so greedy maximal
runs are exact. -/
def javaFrameTry (cs : List Char) :
    Option ((String × String × Nat) × Nat) :=
  match stripL "at ".data cs with
  | none => none
  | some r =>
    let g1 := r.takeWhile javaNameChar
    if g1.isEmpty then none
    else
      match r.drop g1.length with
      | '(' :: r2 =>
        let g2 := r2.takeWhile (fun c => isWordChar c || c == '.')
        if g2.isEmpty then none
        else
          match r2.drop g2.length with
          | ':' :: r3 =>
            let ds := r3.takeWhile Char.isDigit
            if ds.isEmpty then none
            else
              match r3.drop ds.length with
              | ')' :: _ =>
                some ((String.mk g1, String.mk g2, natOfDigits ds),
                  3 + g1.length + 1 + g2.length + 1 + ds.length + 1)
              | _ => none
          | _ => none
      | _ => none

/-- One line matched against `JAVA_ERROR =
^([\w.]+(?:Exception|Error)): (.+)$`. -/
def javaErrorLine (line : List Char) : Option (String × String) :=
  let t := line.takeWhile (fun c => !(c == ':'))
  if t.all (fun c => isWordChar c || c == '.') &&
      ((endsWithChars "Exception".data t && decide (10 ≤ t.length)) ||
       (endsWithChars "Error".data t && decide (6 ≤ t.length))) then
    match stripL ": ".data (line.drop t.length) with
    | some msg =>
      if msg.isEmpty then none else some (String.mk t, String.mk msg)
    | none => none
  else none

/-- `StacktraceParser._parse_java`. -/
def parse_java (text : String) : ParsedStacktrace :=
  let frames := (scanMatches javaFrameTry text.data 0).map (fun p =>
    { file_path := p.2.2.1, line_number := some p.2.2.2,
      function_name := some p.2.1 : StackFrame })
  match (splitOnChar '\n' text.data).findSome? javaErrorLine with
  | some em => { frames, error_type := some em.1, error_message := some em.2 }
  | none => { frames }

/-- `StacktraceParser.parse`: empty text short-circuits; dialects are tried
in the fixed order python, javascript, go, java; the first whose frame
pattern matches wins and tags the language. -/
def StacktraceParser.parse (stacktrace : String) : ParsedStacktrace :=
  if stacktrace = "" then { frames := [] }
  else
    let py := parse_python stacktrace
    if !py.frames.isEmpty then { py with language := some "python" }
    else
      let js := parse_javascript stacktrace
      if !js.frames.isEmpty then { js with language := some "javascript" }
      else
        let go := parse_go stacktrace
        if !go.frames.isEmpty then { go with language := some "go" }
        else
          let ja := parse_java stacktrace
          if !ja.frames.isEmpty then { ja with language := some "java" }
          else { frames := [] }

/-- Every match `scanAux` reports starts at or after the scan position. -/
theorem scanAux_ge (tryAt : List Char → Option (α × Nat))
    (fuel : Nat) (l : List Char) (n : Nat) :
    ∀ p ∈ scanAux tryAt fuel l n, n ≤ p.1 := by
  induction fuel, l, n using scanAux.induct tryAt with
  | case1 l n => simp [scanAux]
  | case2 fuel n => simp [scanAux]
  | case3 fuel c cs n a k hmatch ih =>
    intro p hp
    rw [scanAux, hmatch] at hp
    rcases List.mem_cons.mp hp with h | h
    · subst h; omega
    · have := ih p h; omega
  | case4 fuel c cs n hmatch ih =>
    intro p hp
    rw [scanAux, hmatch] at hp
    have := ih p hp; omega

/-- The matches of a left-to-right scan carry strictly increasing start
positions: results come in original text order, never reversed. -/
theorem scanMatches_sorted (tryAt : List Char → Option (α × Nat))
    (l : List Char) (n : Nat) :
    (scanMatches tryAt l n).Pairwise (fun p q => p.1 < q.1) := by
  unfold scanMatches
  generalize l.length = fuel
  induction fuel, l, n using scanAux.induct tryAt with
  | case1 l n => simp [scanAux]
  | case2 fuel n => simp [scanAux]
  | case3 fuel c cs n a k hmatch ih =>
    rw [scanAux, hmatch]
    refine List.Pairwise.cons (fun q hq => ?_) ih
    have := scanAux_ge tryAt _ _ _ q hq
    omega
  | case4 fuel c cs n hmatch ih =>
    rw [scanAux, hmatch]
    exact ih

/-- `_parse_python` takes error type/message from the first match of
`PYTHON_ERROR` over the whole text (first matching line). -/
theorem parse_python_error_fields (text : String) :
    (parse_python text).error_type =
      ((splitOnChar '\n' text.data).findSome? pythonErrorLine).map
        Prod.fst ∧
    (parse_python text).error_message =
      ((splitOnChar '\n' text.data).findSome? pythonErrorLine).map
        Prod.snd := by
  unfold parse_python
  cases h : (splitOnChar '\n' text.data).findSome? pythonErrorLine <;>
    simp [h]

/-- C7: `StacktraceParser.parse` tries the dialect extractors in the fixed
order python, javascript, go, java; the first dialect with at least one
frame match determines the result and its language tag; frames keep the
top-to-bottom order of their matches in the text (strictly increasing match
positions, never reversed); the winning python dialect's error type/message
come from the first `PYTHON_ERROR` match over the entire text; and with no
frame match anywhere the result has empty frames and no language. -/
theorem C7_parse_dialect_order (text : String) :
    ((parse_python text).frames ≠ [] →
      StacktraceParser.parse text =
        { parse_python text with language := some "python" }) ∧
    ((parse_python text).frames = [] →
      (parse_javascript text).frames ≠ [] →
      StacktraceParser.parse text =
        { parse_javascript text with language := some "javascript" }) ∧
    ((parse_python text).frames = [] →
      (parse_javascript text).frames = [] →
      (parse_go text).frames ≠ [] →
      StacktraceParser.parse text =
        { parse_go text with language := some "go" }) ∧
    ((parse_python text).frames = [] →
      (parse_javascript text).frames = [] →
      (parse_go text).frames = [] →
      (parse_java text).frames ≠ [] →
      StacktraceParser.parse text =
        { parse_java text with language := some "java" }) ∧
    ((parse_python text).frames = [] →
      (parse_javascript text).frames = [] →
      (parse_go text).frames = [] →
      (parse_java text).frames = [] →
      StacktraceParser.parse text = { frames := [] }) ∧
    ((parse_python text).frames ≠ [] →
      (StacktraceParser.parse text).error_type =
        ((splitOnChar '\n' text.data).findSome? pythonErrorLine).map
          Prod.fst ∧
      (StacktraceParser.parse text).error_message =
        ((splitOnChar '\n' text.data).findSome? pythonErrorLine).map
          Prod.snd) ∧
    ((scanMatches pythonFrameTry text.data 0).map Prod.fst).Pairwise
      (· < ·) ∧
    ((scanMatches jsFrameTry text.data 0).map Prod.fst).Pairwise (· < ·) ∧
    ((scanMatches javaFrameTry text.data 0).map Prod.fst).Pairwise
      (· < ·) := by
  have hsorted : ∀ (β : Type) (tryAt : List Char → Option (β × Nat)),
      ((scanMatches tryAt text.data 0).map Prod.fst).Pairwise (· < ·) := by
    intro β tryAt
    exact (List.pairwise_map).mpr (scanMatches_sorted tryAt text.data 0)
  have hempty : text = "" → (parse_python text).frames = [] := by
    intro h; subst h; decide
  by_cases h0 : text = ""
  · subst h0
    refine ⟨?_, ?_, ?_, ?_, ?_, ?_, hsorted _ _, hsorted _ _, hsorted _ _⟩
      <;> decide
  · have hp : StacktraceParser.parse text =
        (let py := parse_python text
         if !py.frames.isEmpty then { py with language := some "python" }
         else
           let js := parse_javascript text
           if !js.frames.isEmpty then
             { js with language := some "javascript" }
           else
             let go := parse_go text
             if !go.frames.isEmpty then { go with language := some "go" }
             else
               let ja := parse_java text
               if !ja.frames.isEmpty then
                 { ja with language := some "java" }
               else { frames := [] }) := by
      unfold StacktraceParser.parse
      rw [if_neg h0]
    refine ⟨?_, ?_, ?_, ?_, ?_, ?_, hsorted _ _, hsorted _ _, hsorted _ _⟩
    · intro h1
      rw [hp]; simp [h1]
    · intro h1 h2
      rw [hp]; simp [h1, h2]
    · intro h1 h2 h3
      rw [hp]; simp [h1, h2, h3]
    · intro h1 h2 h3 h4
      rw [hp]; simp [h1, h2, h3, h4]
    · intro h1 h2 h3 h4
      rw [hp]; simp [h1, h2, h3, h4]
    · intro h1
      rw [hp]; simp only [h1]
      have := parse_python_error_fields text
      simp [h1, this.1, this.2]

/-- Witness for C7: on a concrete two-frame python traceback the python
dialect wins and tags the result. -/
theorem C7_parse_dialect_order_witness :
    StacktraceParser.parse ("Traceback (most recent call last):\n" ++
        "  File \"app.py\", line 10, in main\n" ++
        "  File \"lib.py\", line 20, in helper\nKeyError: boom") =
      { parse_python ("Traceback (most recent call last):\n" ++
          "  File \"app.py\", line 10, in main\n" ++
          "  File \"lib.py\", line 20, in helper\nKeyError: boom") with
        language := some "python" } :=
  (C7_parse_dialect_order ("Traceback (most recent call last):\n" ++
      "  File \"app.py\", line 10, in main\n" ++
      "  File \"lib.py\", line 20, in helper\nKeyError: boom")).1
    (by decide)

/-! ## Stream analyzer (`engine/output_analyzer.py`)

`feed_line` matches the `rstrip`-ped line; the matchers below model the
module's patterns exactly on such (newline-free, no-trailing-whitespace)
lines. -/

/-- `DetectedError` from `engine/output_analyzer.py`. -/
structure DetectedError where
  error_type : Option String
  message : String
  stacktrace : Option String
  file_path : Option String
  line_number : Option Nat
  severity : EventSeverity
  language : Option String := none
deriving DecidableEq, Repr

/-- `MAX_BUFFER_LINES` from `engine/output_analyzer.py`. -/
def MAX_BUFFER_LINES : Nat := 50

/-- `str.rstrip()` (whitespace as in `Char.isWhitespace`). -/
def rstrip (s : String) : String :=
  String.mk ((s.data.reverse.dropWhile Char.isWhitespace).reverse)

def startsWithChars (pre t : List Char) : Bool := (stripL pre t).isSome

/-- `^goroutine \d+ \[`. -/
def goroutineStart (s : List Char) : Bool :=
  match stripL "goroutine ".data s with
  | some r =>
    let ds := r.takeWhile Char.isDigit
    !ds.isEmpty && startsWithChars " [".data (r.drop ds.length)
  | none => false

/-- `ERROR_START_PATTERNS`: does any block-start pattern match (all are
prefix patterns under `re.match`)? -/
def matchesErrorStart (s : List Char) : Bool :=
  startsWithChars "Traceback (most recent call last):".data s ||
  goroutineStart s ||
  startsWithChars "panic:".data s ||
  startsWithChars "Exception in thread".data s ||
  startsWithChars "Unhandled exception".data s

/-- `^(\w+(?:\.\w+)*Error): (.+)$`; returns group 1. -/
def singleLine1 (s : List Char) : Option String :=
  let t := s.takeWhile (fun c => !(c == ':'))
  if dottedErrorName t then
    match stripL ": ".data (s.drop t.length) with
    | some msg => if msg.isEmpty then none else some (String.mk t)
    | none => none
  else none

/-- `^(\w+Exception): (.+)$`; returns group 1. -/
def singleLine2 (s : List Char) : Option String :=
  let t := s.takeWhile (fun c => !(c == ':'))
  if wordExceptionName t then
    match stripL ": ".data (s.drop t.length) with
    | some msg => if msg.isEmpty then none else some (String.mk t)
    | none => none
  else none

/-- `^FATAL: (.+)$`; group 1 is the message (and is what the source passes
as `error_type`). -/
def singleLine3 (s : List Char) : Option String :=
  match stripL "FATAL: ".data s with
  | some msg => if msg.isEmpty then none else some (String.mk msg)
  | none => none

/-- `SINGLE_LINE_ERRORS` tried in list order; the first match's group 1. -/
def singleLineErrorGroup (s : List Char) : Option String :=
  match singleLine1 s with
  | some g => some g
  | none =>
    match singleLine2 s with
    | some g => some g
    | none => singleLine3 s

/-- `^PRE\s+(.+)$` for a literal `PRE` (newline-free line): at least one
whitespace character after the literal, then at least one character. -/
def failTail (pre : List Char) (s : List Char) : Bool :=
  match stripL pre s with
  | some r =>
    match r with
    | c :: _ :: _ => c.isWhitespace
    | _ => false
  | none => false

/-- `\w+Error.+` somewhere at the start of `g`: a nonempty word prefix, the
literal `Error`, and at least one further character. -/
def hasWordErrorPlus (g : List Char) : Bool :=
  let wp := g.takeWhile isWordChar
  (List.range (wp.length + 1)).any (fun p =>
    decide (1 ≤ p) && decide (p + 5 ≤ wp.length) &&
    ((wp.drop p).take 5 == "Error".data) && decide (p + 5 < g.length))

/-- `^E\s+(\w+Error.+)$`. -/
def eTestLine (s : List Char) : Bool :=
  match s with
  | 'E' :: rest =>
    let ws := rest.takeWhile Char.isWhitespace
    !ws.isEmpty && hasWordErrorPlus (rest.drop ws.length)
  | _ => false

/-- `^F{3,}\s*WORD\s*F{3,}$` with fill character `fill` (the pytest
`FAILURES` / `ERRORS` banners). -/
def bannerMatch (fill : Char) (word : List Char) (s : List Char) : Bool :=
  let run1 := s.takeWhile (fun c => c == fill)
  let rest1 := s.drop run1.length
  let ws1 := rest1.takeWhile Char.isWhitespace
  match stripL word (rest1.drop ws1.length) with
  | some r2 =>
    let ws2 := r2.takeWhile Char.isWhitespace
    let run2 := r2.drop ws2.length
    decide (3 ≤ run1.length) && decide (3 ≤ run2.length) &&
      run2.all (fun c => c == fill)
  | none => false

/-- `TEST_FAILURE_PATTERNS`: does any of the five patterns match? -/
def testFailureMatch (s : List Char) : Bool :=
  failTail "FAILED".data s || failTail "FAIL".data s || eTestLine s ||
  bannerMatch '=' "FAILURES".data s || bannerMatch '-' "ERRORS".data s

/-- `error\[E\d+\]:` under `re.match` (a prefix pattern, no groups). -/
def buildPattern1 (s : List Char) : Bool :=
  match stripL "error[E".data s with
  | some r =>
    let ds := r.takeWhile Char.isDigit
    !ds.isEmpty && startsWithChars "]:".data (r.drop ds.length)
  | none => false

/-- Case-insensitive literal strip (`pre` given lowercase). -/
def stripCI : List Char → List Char → Option (List Char)
  | [], cs => some cs
  | _ :: _, [] => none
  | p :: ps, c :: cs => if c.toLower == p then stripCI ps cs else none

/-- `^error: (.+)$` with `re.IGNORECASE` (one group, so no file capture). -/
def buildPattern2 (s : List Char) : Bool :=
  match stripCI "error: ".data s with
  | some msg => !msg.isEmpty
  | none => false

/-- `:(\d+):(\d+): error: (.+)$` after the greedy group 1; returns the first
captured number. -/
def buildTail3 (r : List Char) : Option Nat :=
  match r with
  | ':' :: r1 =>
    let d1 := r1.takeWhile Char.isDigit
    if d1.isEmpty then none
    else
      match r1.drop d1.length with
      | ':' :: r2 =>
        let d2 := r2.takeWhile Char.isDigit
        if d2.isEmpty then none
        else
          match stripL ": error: ".data (r2.drop d2.length) with
          | some msg => if msg.isEmpty then none else some (natOfDigits d1)
          | none => none
      | _ => none
  | _ => none

/-- `:(\d+):(\d+): (E\d+ .+)$` after the greedy group 1. -/
def buildTail4 (r : List Char) : Option Nat :=
  match r with
  | ':' :: r1 =>
    let d1 := r1.takeWhile Char.isDigit
    if d1.isEmpty then none
    else
      match r1.drop d1.length with
      | ':' :: r2 =>
        let d2 := r2.takeWhile Char.isDigit
        if d2.isEmpty then none
        else
          match stripL ": E".data (r2.drop d2.length) with
          | some r3 =>
            let d3 := r3.takeWhile Char.isDigit
            if d3.isEmpty then none
            else
              match r3.drop d3.length with
              | ' ' :: _ :: _ => some (natOfDigits d1)
              | _ => none
          | none => none
      | _ => none
  | _ => none

/-- `^(.+):tail$` with a greedy group 1: the largest split point whose tail
parses wins; returns (group 1, captured line number). -/
def greedySplit (tail : List Char → Option Nat) (s : List Char) :
    Option (String × Nat) :=
  (List.range (s.length + 1)).reverse.findSome? (fun i =>
    if decide (1 ≤ i) then
      match tail (s.drop i) with
      | some n => some (String.mk (s.take i), n)
      | none => none
    else none)

/-- `BUILD_FAILURE_PATTERNS` tried in list order; per the source, a file and
line are captured only when the matching pattern has ≥ 2 groups (patterns 3
and 4). -/
def buildFailureMatch (s : List Char) :
    Option (Option String × Option Nat) :=
  if buildPattern1 s then some (none, none)
  else if buildPattern2 s then some (none, none)
  else
    match greedySplit buildTail3 s with
    | some (f, n) => some (some f, some n)
    | none =>
      match greedySplit buildTail4 s with
      | some (f, n) => some (some f, some n)
      | none => none

/-- Mutable state of an `OutputAnalyzer` instance. -/
structure AnalyzerState where
  buffer : List String
  in_error_block : Bool
  blank_line_count : Nat
deriving DecidableEq, Repr

/-- `OutputAnalyzer.__init__` / the state after `reset()`. -/
def initAnalyzer : AnalyzerState := ⟨[], false, 0⟩

/-- `"\n".join`. -/
def joinNl : List String → String
  | [] => ""
  | [s] => s
  | s :: rest => s ++ "\n" ++ joinNl rest

/-- `text.split("\n")[-1]`. -/
def lastLine (text : String) : String :=
  String.mk ((splitOnChar '\n' text.data).getLastD [])

/-- `OutputAnalyzer._flush_buffer`: parse the buffered block; with frames,
file/line come from the FIRST parsed frame; without frames, no location and
the error type defaults to `UnknownError`.  (`parsed.error_message or ...`:
a present message is never the empty string — `(.+)` — so `Option.getD` is
exact; likewise `parsed.error_type or "UnknownError"`.) -/
def flush_buffer (st : AnalyzerState) : AnalyzerState × Option DetectedError :=
  if st.buffer.isEmpty then ({ st with in_error_block := false }, none)
  else
    let text := joinNl st.buffer
    let st' : AnalyzerState := ⟨[], false, 0⟩
    let parsed := StacktraceParser.parse text
    match parsed.frames with
    | first_frame :: _ =>
      (st', some
        { error_type := parsed.error_type
          message := parsed.error_message.getD (lastLine text)
          stacktrace := some text
          file_path := some first_frame.file_path
          line_number := first_frame.line_number
          severity := .error
          language := parsed.language })
    | [] =>
      (st', some
        { error_type := some (parsed.error_type.getD "UnknownError")
          message := if text = "" then "Unknown error" else lastLine text
          stacktrace := some text
          file_path := none
          line_number := none
          severity := .error })

/-- `OutputAnalyzer.feed_line`. -/
def feed_line (st : AnalyzerState) (line : String) :
    AnalyzerState × Option DetectedError :=
  let stripped := rstrip line
  if st.in_error_block then
    if stripped = "" then
      let bc := st.blank_line_count + 1
      if 2 ≤ bc then flush_buffer { st with blank_line_count := bc }
      else
        ({ st with
            blank_line_count := bc
            buffer := st.buffer ++ [stripped] }, none)
    else
      let st1 := { st with
        blank_line_count := 0
        buffer := st.buffer ++ [stripped] }
      if MAX_BUFFER_LINES ≤ st1.buffer.length then flush_buffer st1
      else if (singleLineErrorGroup stripped.data).isSome then
        flush_buffer st1
      else (st1, none)
  else if matchesErrorStart stripped.data then
    (⟨[stripped], true, 0⟩, none)
  else
    match singleLineErrorGroup stripped.data with
    | some g =>
      (st, some ⟨some g, stripped, none, none, none, .error, none⟩)
    | none =>
      if testFailureMatch stripped.data then
        (st, some ⟨some "TestFailure", stripped, none, none, none, .error,
          none⟩)
      else
        match buildFailureMatch stripped.data with
        | some fl =>
          (st, some ⟨some "BuildError", stripped, none, fl.1, fl.2,
            .warning, none⟩)
        | none => (st, none)

/-- `OutputAnalyzer.flush`. -/
def flushAnalyzer (st : AnalyzerState) :
    AnalyzerState × Option DetectedError :=
  if !st.buffer.isEmpty then flush_buffer st else (st, none)

/-- One external operation on an analyzer instance. -/
inductive AnalyzerOp where
  | feed (line : String)
  | flushOp
  | resetOp
deriving Repr

/-- Apply one operation, keeping only the state. -/
def analyzerStep (st : AnalyzerState) : AnalyzerOp → AnalyzerState
  | .feed line => (feed_line st line).1
  | .flushOp => (flushAnalyzer st).1
  | .resetOp => initAnalyzer

/-- The state after a sequence of operations on a fresh analyzer. -/
def runAnalyzer (ops : List AnalyzerOp) : AnalyzerState :=
  ops.foldl analyzerStep initAnalyzer

/-- Substring test (used to state that the emitted stacktrace contains both
file references). -/
def containsChars (needle : List Char) : List Char → Bool
  | [] => needle.isEmpty
  | c :: cs => startsWithChars needle (c :: cs) || containsChars needle cs

/-- C6: feeding the synthetic four-line Python traceback line by line emits
nothing on the header and the two frame lines and exactly one
`DetectedError` on the trailing `KeyError: 'x'` line, with error type
`KeyError` and a stacktrace containing both file references. -/
theorem C6_traceback_roundtrip :
    (feed_line initAnalyzer "Traceback (most recent call last):").2 =
      none ∧
    (feed_line (feed_line initAnalyzer
        "Traceback (most recent call last):").1
      "  File \"app.py\", line 10, in main").2 = none ∧
    (feed_line (feed_line (feed_line initAnalyzer
        "Traceback (most recent call last):").1
      "  File \"app.py\", line 10, in main").1
      "  File \"lib.py\", line 20, in helper").2 = none ∧
    (feed_line (feed_line (feed_line (feed_line initAnalyzer
        "Traceback (most recent call last):").1
      "  File \"app.py\", line 10, in main").1
      "  File \"lib.py\", line 20, in helper").1 "KeyError: 'x'").2 =
      some
        { error_type := some "KeyError"
          message := "'x'"
          stacktrace := some ("Traceback (most recent call last):\n" ++
            "  File \"app.py\", line 10, in main\n" ++
            "  File \"lib.py\", line 20, in helper\nKeyError: 'x'")
          file_path := some "app.py"
          line_number := some 10
          severity := .error
          language := some "python" } ∧
    containsChars "app.py".data ("Traceback (most recent call last):\n" ++
      "  File \"app.py\", line 10, in main\n" ++
      "  File \"lib.py\", line 20, in helper\nKeyError: 'x'").data = true ∧
    containsChars "lib.py".data ("Traceback (most recent call last):\n" ++
      "  File \"app.py\", line 10, in main\n" ++
      "  File \"lib.py\", line 20, in helper\nKeyError: 'x'").data =
      true := by
  refine ⟨rfl, rfl, rfl, ?_, by decide, by decide⟩
  decide

/-- The invariant maintained by every analyzer operation: the buffer never
exceeds `MAX_BUFFER_LINES`, and it can touch the cap only right after a
single blank line (whose append is the one unchecked growth path). -/
def analyzerInv (st : AnalyzerState) : Prop :=
  st.buffer.length ≤ MAX_BUFFER_LINES ∧
  (st.buffer.length = MAX_BUFFER_LINES → 1 ≤ st.blank_line_count)

/-- `_flush_buffer` either clears the state or (when the buffer was already
empty) leaves the empty buffer in place. -/
theorem flush_buffer_fst (st : AnalyzerState) :
    (flush_buffer st).1 = ⟨[], false, 0⟩ ∨
    ((flush_buffer st).1 = { st with in_error_block := false } ∧
      st.buffer = []) := by
  unfold flush_buffer
  by_cases h : st.buffer.isEmpty = true
  · right
    rw [if_pos h]
    exact ⟨rfl, List.isEmpty_iff.mp h⟩
  · left
    rw [if_neg h]
    dsimp only
    split <;> rfl

/-- After `_flush_buffer` the invariant always holds. -/
theorem analyzerInv_flush (st : AnalyzerState) :
    analyzerInv (flush_buffer st).1 := by
  rcases flush_buffer_fst st with h | ⟨h, hb⟩ <;> rw [h]
  · exact ⟨by simp [MAX_BUFFER_LINES], by simp [MAX_BUFFER_LINES]⟩
  · refine ⟨?_, ?_⟩ <;> simp [hb, MAX_BUFFER_LINES]

/-- A nonempty buffer always flushes to a cleared state AND an emitted
`DetectedError`: no buffered content is silently dropped. -/
theorem flush_buffer_some (st : AnalyzerState) (hs : st.buffer ≠ []) :
    (flush_buffer st).1 = ⟨[], false, 0⟩ ∧ (flush_buffer st).2.isSome := by
  unfold flush_buffer
  rw [if_neg (by simpa using hs)]
  dsimp only
  split <;> simp

/-- `feed_line` preserves the buffer invariant. -/
theorem analyzerInv_feed (st : AnalyzerState) (line : String)
    (h : analyzerInv st) : analyzerInv (feed_line st line).1 := by
  obtain ⟨h1, h2⟩ := h
  unfold feed_line
  by_cases hib : st.in_error_block = true
  · rw [if_pos hib]
    by_cases hblank : rstrip line = ""
    · rw [if_pos hblank]
      by_cases hbc : 2 ≤ st.blank_line_count + 1
      · rw [if_pos hbc]
        exact analyzerInv_flush _
      · rw [if_neg hbc]
        have hlen : st.buffer.length ≤ MAX_BUFFER_LINES - 1 := by
          by_cases he : st.buffer.length = MAX_BUFFER_LINES
          · have := h2 he
            omega
          · simp [MAX_BUFFER_LINES] at h1 he ⊢
            omega
        refine ⟨?_, ?_⟩ <;> (simp [MAX_BUFFER_LINES] at hlen ⊢; try omega)
    · rw [if_neg hblank]
      by_cases hcap : MAX_BUFFER_LINES ≤ st.buffer.length + 1
      · simp only [List.length_append, List.length_cons, List.length_nil]
        rw [if_pos (by simpa using hcap)]
        exact analyzerInv_flush _
      · simp only [List.length_append, List.length_cons, List.length_nil]
        rw [if_neg (by simpa using hcap)]
        by_cases hsl :
          (singleLineErrorGroup (rstrip line).data).isSome = true
        · rw [if_pos hsl]
          exact analyzerInv_flush _
        · rw [if_neg hsl]
          refine ⟨?_, ?_⟩ <;> simp [MAX_BUFFER_LINES] at hcap ⊢ <;> omega
  · rw [if_neg hib]
    by_cases hstart : matchesErrorStart (rstrip line).data = true
    · rw [if_pos hstart]
      exact ⟨by simp [MAX_BUFFER_LINES], by simp [MAX_BUFFER_LINES]⟩
    · rw [if_neg hstart]
      cases hsl : singleLineErrorGroup (rstrip line).data with
      | some g => exact ⟨h1, h2⟩
      | none =>
        simp only []
        by_cases htf : testFailureMatch (rstrip line).data = true
        · rw [if_pos htf]
          exact ⟨h1, h2⟩
        · rw [if_neg htf]
          cases hbf : buildFailureMatch (rstrip line).data with
          | some fl => exact ⟨h1, h2⟩
          | none => exact ⟨h1, h2⟩

/-- The invariant holds after any sequence of operations on a fresh
analyzer. -/
theorem analyzerInv_run (ops : List AnalyzerOp) :
    analyzerInv (runAnalyzer ops) := by
  suffices h : ∀ st, analyzerInv st → analyzerInv (ops.foldl analyzerStep st)
    from h initAnalyzer
      ⟨by simp [initAnalyzer, MAX_BUFFER_LINES],
       by simp [initAnalyzer, MAX_BUFFER_LINES]⟩
  induction ops with
  | nil => exact fun st h => h
  | cons op rest ih =>
    intro st h
    apply ih
    cases op with
    | feed line => exact analyzerInv_feed st line h
    | flushOp =>
      simp only [analyzerStep, flushAnalyzer]
      split
      · exact analyzerInv_flush _
      · exact h
    | resetOp =>
      exact ⟨by simp [analyzerStep, initAnalyzer, MAX_BUFFER_LINES],
        by simp [analyzerStep, initAnalyzer, MAX_BUFFER_LINES]⟩

/-- C9: over every operation sequence on one analyzer instance the line
buffer holds at most `MAX_BUFFER_LINES` (50) lines after each call, and a
non-blank line that brings the buffer to the cap triggers an immediate
forced flush that emits a `DetectedError` and empties the buffer. -/
theorem C9_buffer_bounded (ops : List AnalyzerOp) (line : String) :
    (runAnalyzer ops).buffer.length ≤ MAX_BUFFER_LINES ∧
    ((runAnalyzer ops).in_error_block = true → rstrip line ≠ "" →
      MAX_BUFFER_LINES ≤ (runAnalyzer ops).buffer.length + 1 →
      (feed_line (runAnalyzer ops) line).1.buffer = [] ∧
      ((feed_line (runAnalyzer ops) line).2).isSome) := by
  refine ⟨(analyzerInv_run ops).1, fun hib hblank hcap => ?_⟩
  unfold feed_line
  rw [if_pos hib, if_neg hblank]
  simp only [List.length_append, List.length_cons, List.length_nil]
  rw [if_pos (by simpa using hcap)]
  have hne : (runAnalyzer ops).buffer ++ [rstrip line] ≠ [] := by simp
  have := flush_buffer_some
    { runAnalyzer ops with
      blank_line_count := 0
      buffer := (runAnalyzer ops).buffer ++ [rstrip line] } hne
  exact ⟨by rw [this.1], this.2⟩

/-- Witness for C9: after buffering 49 lines of an error block, feeding one
more non-blank line force-flushes — an error is emitted and the buffer is
emptied. -/
theorem C9_buffer_bounded_witness :
    (feed_line (runAnalyzer
        (AnalyzerOp.feed "Traceback (most recent call last):" ::
          List.replicate 48 (AnalyzerOp.feed "x"))) "y").1.buffer = [] ∧
    ((feed_line (runAnalyzer
        (AnalyzerOp.feed "Traceback (most recent call last):" ::
          List.replicate 48 (AnalyzerOp.feed "x"))) "y").2).isSome :=
  (C9_buffer_bounded
    (AnalyzerOp.feed "Traceback (most recent call last):" ::
      List.replicate 48 (AnalyzerOp.feed "x")) "y").2
    (by decide) (by decide) (by decide)

/-- C10: when the analyzer flushes a buffered error block, the emitted
`DetectedError` takes file/line from the FIRST parsed frame when frames
exist, and has no location plus the default error type `UnknownError` when
none do — whereas the error-tracker path `normalize_sentry_event` takes
file/line from the LAST frame of the last exception. -/
theorem C10_flush_first_frame_sentry_last_frame (buf : List String)
    (blk : Bool) (cnt : Nat) (hbuf : buf ≠ [])
    (p : SentryPayload) (ev : SentryEventData) (exc : SentryException)
    (f : SentryFrame) (hev : p.event = some ev)
    (hexc : ev.values.getLast? = some exc)
    (hf : exc.frames.getLast? = some f) :
    (∀ fr rest,
      (StacktraceParser.parse (joinNl buf)).frames = fr :: rest →
      ∃ e, (flush_buffer ⟨buf, blk, cnt⟩).2 = some e ∧
        e.file_path = some fr.file_path ∧
        e.line_number = fr.line_number) ∧
    ((StacktraceParser.parse (joinNl buf)).frames = [] →
      ∃ e, (flush_buffer ⟨buf, blk, cnt⟩).2 = some e ∧
        e.file_path = none ∧ e.line_number = none ∧
        e.error_type = some ((StacktraceParser.parse
          (joinNl buf)).error_type.getD "UnknownError")) ∧
    (∃ e, normalize_sentry_event p = some e ∧
      e.file_path = f.filename ∧ e.line_number = f.lineno) := by
  have hne : (⟨buf, blk, cnt⟩ : AnalyzerState).buffer.isEmpty ≠ true := by
    simpa using hbuf
  refine ⟨fun fr rest hfr => ?_, fun hfr => ?_, ?_⟩
  · unfold flush_buffer
    rw [if_neg hne]
    dsimp only
    rw [hfr]
    exact ⟨_, rfl, rfl, rfl⟩
  · unfold flush_buffer
    rw [if_neg hne]
    dsimp only
    rw [hfr]
    exact ⟨_, rfl, rfl, rfl, rfl⟩
  · unfold normalize_sentry_event
    rw [hev]
    dsimp only
    rw [hexc]
    dsimp only
    rw [hf]
    exact ⟨_, rfl, rfl, rfl⟩

/-- A sample buffered block whose parse has a frame. -/
def c10Buf : List String :=
  ["Traceback (most recent call last):",
   "  File \"a.py\", line 3, in f", "ValueError: v"]

/-- A sample Sentry payload whose last exception has two frames. -/
def c10Payload : SentryPayload :=
  ⟨some ⟨some "T", some "error", none,
    [⟨some "ValueError", some "v",
      [⟨some "x.py", some 1, some "g"⟩,
       ⟨some "y.py", some 2, some "h"⟩]⟩]⟩⟩

/-- Witness for C10: the flushed block reports the first (outermost) frame
`a.py:3`, while the Sentry path reports the last (innermost) frame
`y.py:2`. -/
theorem C10_flush_first_frame_sentry_last_frame_witness :
    (∃ e, (flush_buffer ⟨c10Buf, true, 0⟩).2 = some e ∧
      e.file_path = some "a.py" ∧ e.line_number = some (3 : Nat)) ∧
    (∃ e, normalize_sentry_event c10Payload = some e ∧
      e.file_path = some "y.py" ∧ e.line_number = some (2 : Nat)) := by
  have h := C10_flush_first_frame_sentry_last_frame c10Buf true 0
    (by decide)
    c10Payload ⟨some "T", some "error", none,
      [⟨some "ValueError", some "v",
        [⟨some "x.py", some 1, some "g"⟩,
         ⟨some "y.py", some 2, some "h"⟩]⟩]⟩
    ⟨some "ValueError", some "v",
      [⟨some "x.py", some 1, some "g"⟩,
       ⟨some "y.py", some 2, some "h"⟩]⟩
    ⟨some "y.py", some 2, some "h"⟩ rfl rfl rfl
  exact ⟨h.1 ⟨"a.py", some 3, some "f", none⟩ [] (by decide), h.2.2⟩
